import Mathlib

/-!
Verification of the briefly retrieval-and-narration pipeline.

Shallow embedding of the backend sources:
  * `backend/services/tts_service.py`  — script assembly (`_create_podcast_script`)
  * `backend/vector_search.py`         — similarity search (`search_by_vector_similarity`)
  * `backend/main.py`                  — podcast generation endpoints
  * `backend/parallel_api/main.py`     — batch news-with-audio workflow
  * `backend/parallel_api/summarization_service.py` — `create_audio_summary`

Python `str` values are modelled as `List Char` (a Python string is a sequence
of code points, which matches `List Char` exactly; Lean's `String` hides its
character list behind UTF-8 positions).  Lean string literals are converted
with `String.data`.  External collaborators (the embedding model, the pgvector
`<=>` operator, ElevenLabs, S3, the database driver) are passed in as oracle
parameters: a fallible call is an `Except` value, a call that the Python code
treats as returning data is a plain value.
-/

/-- A Python string: a list of code points. -/
abbrev Str := List Char

/-- Convert a Lean string literal to the `Str` model. -/
def str (s : String) : Str := s.data

/-- Python `str(n)` for a non-negative integer, as used by f-strings. -/
def natStr (n : Nat) : Str := (toString n).data

/-- Python truthiness of an optional string (`None` and `""` are falsy). -/
def pyTruthy : Option Str → Bool
  | none => false
  | some s => !s.isEmpty

/-! ## `TTSService._create_podcast_script` (backend/services/tts_service.py)

An article reaches the assembler as a Python dict produced by `ArticleService`
from a database row.  `dict.get(key)` returns `None` both when the key is
absent and when it is present with value `None`, so `summary` collapses the
two cases into one `Option`.  `dict.get(key, default)` uses the default only
when the key is absent, so for `category_name` and `source` the model keeps
the three cases apart: field absent (`none`), field present holding SQL NULL
(`some none`), field present holding a string (`some (some s)`).  The `text`
column is NOT NULL in the schema (§3 of the design: required, non-empty), so a
present-but-None `text` cannot occur; `none` models an absent key, for which
the code's `article.get('text', '')` substitutes the empty string. -/

structure ArticleDict where
  summary : Option Str := none
  text : Option Str := none
  category_name : Option (Option Str) := none
  source : Option (Option Str) := none
  deriving DecidableEq

/-- `content = article.get('summary') or article.get('text', '')`:
Python `or` yields the right operand when the left is `None` or empty. -/
def contentOf (a : ArticleDict) : Str :=
  match a.summary with
  | some s => if s.isEmpty then a.text.getD [] else s
  | none => a.text.getD []

/-- `if len(content) > 1000: content = content[:1000] + "..."`. -/
def truncateContent (c : Str) : Str :=
  if 1000 < c.length then c.take 1000 ++ str "..." else c

/-- `category = article.get('category_name', 'General')`, then rendered by the
f-string.  A present key holding `None` is returned as-is by `.get`, and the
f-string renders Python `None` as the text `None`. -/
def categoryText (a : ArticleDict) : Str :=
  match a.category_name with
  | none => str "General"
  | some none => str "None"
  | some (some c) => c

/-- `source = article.get('source', 'Unknown source')`, rendered like
`categoryText`. -/
def sourceText (a : ArticleDict) : Str :=
  match a.source with
  | none => str "Unknown source"
  | some none => str "None"
  | some (some s) => s

/-- One article's part of the script:
`f"Story {idx}: {category}\n{content}\nSource: {source}\n\n"`. -/
def articleSegment (idx : Nat) (a : ArticleDict) : Str :=
  str "Story " ++ natStr idx ++ str ": " ++ categoryText a ++ str "\n"
    ++ truncateContent (contentOf a) ++ str "\n"
    ++ str "Source: " ++ sourceText a ++ str "\n\n"

/-- The introduction part (two adjacent Python literals concatenated):
`"Welcome to your personalized news podcast. " f"Here are the top
{len(articles)} stories for you today.\n\n"`. -/
def introPart (n : Nat) : Str :=
  str "Welcome to your personalized news podcast. Here are the top "
    ++ natStr n ++ str " stories for you today.\n\n"

/-- The conclusion part. -/
def outroPart : Str :=
  str "That's all for today's news. Thank you for listening!"

/-- The `for idx, article in enumerate(articles, 1)` loop body, appending one
part per article. -/
def articleParts : Nat → List ArticleDict → List Str
  | _, [] => []
  | idx, a :: rest => articleSegment idx a :: articleParts (idx + 1) rest

/-- `TTSService._create_podcast_script`: builds `script_parts` (intro, one part
per article, outro) and returns `"".join(script_parts)`. -/
def create_podcast_script (articles : List ArticleDict) : Str :=
  List.flatten (introPart articles.length :: articleParts 1 articles ++ [outroPart])

/-! ## `search_by_vector_similarity` (backend/vector_search.py)

The function embeds the query, connects to Postgres, computes
`(vector <=> %s::vector) as distance` for *every* row of `articles` (no
`WHERE vector IS NOT NULL`), sorts the fetched rows in Python with
`sorted(rows, key=lambda x: x['distance'])[:top_k]`, prints each result and
returns the list.  Oracle parameters: the query embedding returned by the
embedding service, the external pgvector cosine-distance operator `<=>`,
and two failure switches for the database driver.

Exception structure of the source, mirrored below:
  * `psycopg2.connect` (line 51) sits *outside* the `try`, so a connection
    failure propagates to the caller as a raised exception;
  * everything from `cursor.execute` on is inside `try ... except Exception:
    return []`, so a query failure yields an empty list;
  * SQL `NULL <=> v` is `NULL`, fetched as Python `None`; `sorted` raises
    `TypeError` as soon as a `None` key is compared (which happens whenever
    the list has at least two rows and some key is `None`), and the result
    loop's `f"{row['distance']:.4f}"` raises `TypeError` on a `None`
    distance; both are caught and produce `[]`. -/

/-- A pgvector embedding, modelled with exact rationals. -/
abbrev Vec := List ℚ

/-- A Python exception, reduced to its message. -/
abbrev Err := Str

/-- A row of the `articles` table, with the columns the search touches. -/
structure DbArticle where
  id : Nat
  vector : Option Vec
  deriving DecidableEq

/-- A row fetched by the search's SELECT: the article plus its computed
`distance` column (`NULL` when `vector` is `NULL`). -/
structure FetchedRow where
  id : Nat
  vector : Option Vec
  distance : Option ℚ
  deriving DecidableEq

/-- The SELECT over the whole `articles` table: every stored row, with
`distance = vector <=> query` (`dist` is the external `<=>` operator). -/
def fetchRows (dist : Vec → Vec → ℚ) (q : Vec) (store : List DbArticle) :
    List FetchedRow :=
  store.map (fun a => ⟨a.id, a.vector, a.vector.map (fun v => dist v q)⟩)

/-- The comparison `sorted` uses on rows whose keys are all non-`None`
(the `getD` default is never reached on the sorting path: a `None` key
raises instead, see `search_by_vector_similarity`). -/
def rowLE (a b : FetchedRow) : Prop := a.distance.getD 0 ≤ b.distance.getD 0

instance : DecidableRel rowLE :=
  fun a b => inferInstanceAs (Decidable (a.distance.getD 0 ≤ b.distance.getD 0))

instance : IsTotal FetchedRow rowLE := ⟨fun _ _ => le_total _ _⟩

instance : IsTrans FetchedRow rowLE := ⟨fun _ _ _ => le_trans⟩

/-- `search_by_vector_similarity(query, top_k)`.  `query_embedding` is what
`generate_embedding` returned (`none` models Python `None`; an empty vector
is also falsy for `if not query_embedding`). -/
def search_by_vector_similarity (query_embedding : Option Vec)
    (dist : Vec → Vec → ℚ) (connFails queryFails : Bool)
    (store : List DbArticle) (top_k : Nat) : Except Err (List FetchedRow) :=
  match query_embedding with
  | none => .ok []                    -- "Failed to generate embedding"
  | some [] => .ok []                 -- empty vector is falsy, same branch
  | some q =>
    if connFails then
      .error (str "psycopg2 connect raised")   -- connect is outside the try
    else if queryFails then
      .ok []                          -- execute raised, caught: return []
    else
      let rows := fetchRows dist q store
      if rows.isEmpty then .ok []     -- "No articles found in database"
      else if 2 ≤ rows.length ∧ rows.any (fun r => r.distance.isNone) then
        .ok []                        -- sorted() compared a None key: TypeError, caught
      else
        let rows_sorted := (List.insertionSort rowLE rows).take top_k
        if rows_sorted.any (fun r => r.distance.isNone) then
          .ok []                      -- f"{distance:.4f}" on None: TypeError, caught
        else
          .ok rows_sorted

/-! ## Podcast generation endpoints (backend/main.py)

`/podcast/generate/user` fetches articles via `ArticleService`, renders audio
with `TTSService.generate_audio_from_articles` (which assembles the script
with `_create_podcast_script` and calls ElevenLabs), uploads the file with
`S3Service.upload_podcast`, persists a row via
`PodcastService.create_podcast_record`, and answers with the S3 URL.
`/podcast/generate/articles` and `/podcast/generate/categories` stop after the
TTS step: they answer with the local file path and perform no upload and no
database insert.

External collaborators are oracles in `PipelineEnv`.  Observable effects are
returned alongside the HTTP response: the list of S3 keys uploaded and the
list of `podcasts` rows persisted. -/

/-- The `podcasts` table row written by `PodcastService.create_podcast_record`
(`INSERT INTO podcasts (user_id, script, s3_link, spotify_link) ...`). -/
structure PodcastRecord where
  id : Nat
  user_id : Int
  script : Str
  s3_link : Str
  spotify_link : Option Str
  deriving DecidableEq

/-- The `PodcastResponse` pydantic model returned on success. -/
structure PodcastResponse where
  success : Bool
  audio_path : Str
  filename : Str
  article_count : Nat
  message : Str
  deriving DecidableEq

/-- An `HTTPException`: status code and detail. -/
abbrev HttpErr := Nat × Str

/-- What one endpoint invocation produces: the HTTP outcome, the S3 keys
uploaded, and the `podcasts` rows persisted. -/
structure RunResult where
  response : Except HttpErr PodcastResponse
  uploaded : List Str
  persisted : List PodcastRecord

/-- The external collaborators of the endpoints in backend/main.py. -/
structure PipelineEnv where
  /-- `ArticleService.get_articles_by_user_preferences` (raises or returns dicts). -/
  fetchUserArticles : Except Err (List ArticleDict)
  /-- `ArticleService.get_articles_by_category`. -/
  fetchCategoryArticles : Except Err (List ArticleDict)
  /-- `ArticleService.get_articles_by_ids`. -/
  fetchIdArticles : Except Err (List ArticleDict)
  /-- The ElevenLabs `text_to_speech.convert` call on a script plus the local
  file write inside `generate_audio_from_articles` (raises or succeeds). -/
  ttsConvert : Str → Except Err Unit
  /-- The boto3 `upload_file` call inside `S3Service.upload_podcast`. -/
  s3Upload : Except Err Unit
  /-- The `INSERT INTO podcasts ... RETURNING id` of
  `PodcastService.create_podcast_record`; on success the row is persisted and
  its fresh id returned, on failure nothing is written. -/
  insertPodcast : Except Err Nat
  /-- `datetime.now().strftime("%Y%m%d_%H%M%S")`. -/
  timestamp : Str
  /-- `settings.aws_s3_bucket`. -/
  bucket : Str
  /-- `settings.aws_s3_region`. -/
  region : Str

/-- `os.path.basename`: the part after the last `/`. -/
def pyBasename (p : Str) : Str := (p.reverse.takeWhile (fun c => c != '/')).reverse

/-- The S3 key `f"podcasts/podcast_{timestamp}.mp3"` built by
`S3Service.upload_podcast` (no `article_id` is passed by the endpoint). -/
def s3Key (env : PipelineEnv) : Str :=
  str "podcasts/podcast_" ++ env.timestamp ++ str ".mp3"

/-- The URL `f"https://{bucket}.s3.{region}.amazonaws.com/{s3_key}"` returned
by `S3Service.upload_podcast`. -/
def s3Url (env : PipelineEnv) : Str :=
  str "https://" ++ env.bucket ++ str ".s3." ++ env.region
    ++ str ".amazonaws.com/" ++ s3Key env

/-- The local path `os.path.join("generated_audio", f"podcast_{timestamp}.mp3")`
built by `TTSService.generate_audio_from_articles`. -/
def localAudioPath (env : PipelineEnv) : Str :=
  str "generated_audio/podcast_" ++ env.timestamp ++ str ".mp3"

/-- `POST /podcast/generate/user` (`generate_podcast_from_user_preferences`).
The local-file cleanup (`os.remove`) that follows the database insert is
plumbing outside the pipeline's five steps and is not modelled. -/
def generate_podcast_from_user_preferences (env : PipelineEnv) (user_id : Int) :
    RunResult :=
  match env.fetchUserArticles with
  | .error e =>
      ⟨.error (500, str "Failed to generate podcast: " ++ e), [], []⟩
  | .ok articles =>
    if articles.isEmpty then
      ⟨.error (404, str "No articles found matching user preferences"), [], []⟩
    else
      let script := create_podcast_script articles
      match env.ttsConvert script with
      | .error e =>
          ⟨.error (500, str "Failed to generate podcast: " ++ e), [], []⟩
      | .ok _ =>
        match env.s3Upload with
        | .error e =>
            ⟨.error (500, str "Failed to generate podcast: " ++ e), [], []⟩
        | .ok _ =>
          let url := s3Url env
          match env.insertPodcast with
          | .error e =>
              ⟨.error (500, str "Failed to generate podcast: " ++ e),
                [s3Key env], []⟩
          | .ok podcast_id =>
              ⟨.ok { success := true
                     audio_path := url
                     filename := pyBasename url
                     article_count := articles.length
                     message := str "Successfully generated podcast with "
                       ++ natStr articles.length ++ str " articles" },
                [s3Key env],
                [{ id := podcast_id, user_id := user_id, script := script
                   s3_link := url, spotify_link := none }]⟩

/-- Shared shape of `/podcast/generate/articles` and
`/podcast/generate/categories`: fetch, 404 on empty, synthesize, answer with
the *local* path; no upload, no database write. -/
def generate_podcast_local (env : PipelineEnv)
    (fetch : Except Err (List ArticleDict)) (notFoundDetail : Str) : RunResult :=
  match fetch with
  | .error e =>
      ⟨.error (500, str "Failed to generate podcast: " ++ e), [], []⟩
  | .ok articles =>
    if articles.isEmpty then
      ⟨.error (404, notFoundDetail), [], []⟩
    else
      let script := create_podcast_script articles
      match env.ttsConvert script with
      | .error e =>
          ⟨.error (500, str "Failed to generate podcast: " ++ e), [], []⟩
      | .ok _ =>
          ⟨.ok { success := true
                 audio_path := localAudioPath env
                 filename := pyBasename (localAudioPath env)
                 article_count := articles.length
                 message := str "Successfully generated podcast with "
                   ++ natStr articles.length ++ str " articles" },
            [], []⟩

/-- `POST /podcast/generate/categories` (`generate_podcast_from_categories`). -/
def generate_podcast_from_categories (env : PipelineEnv) : RunResult :=
  generate_podcast_local env env.fetchCategoryArticles
    (str "No articles found in provided categories")

/-- `POST /podcast/generate/articles` (`generate_podcast_from_articles`). -/
def generate_podcast_from_articles (env : PipelineEnv) : RunResult :=
  generate_podcast_local env env.fetchIdArticles
    (str "No articles found with provided IDs")

/-! ## `SummarizationService.create_audio_summary`
(backend/parallel_api/summarization_service.py)

The Azure OpenAI chat call is the oracle `modelCall`, taking the system and
user prompts and returning the response message content (possibly `None`) or
raising.  Everything after the emptiness guard sits in a
`try ... except Exception: return None`. -/

/-- Python `str.strip()`: whitespace removed from both ends. -/
def pyStrip (s : Str) : Str :=
  ((s.dropWhile Char.isWhitespace).reverse.dropWhile Char.isWhitespace).reverse

/-- Python `len(s.split())`: the number of maximal whitespace-free runs. -/
def pyWordCount (s : Str) : Nat :=
  ((s.splitOnP (fun c => c.isWhitespace)).filter (fun w => !w.isEmpty)).length

/-- The fixed system prompt (three adjacent literals). -/
def summarySystemPrompt : Str :=
  str "You are an expert news summarizer creating content for audio podcasts. Create engaging, natural-sounding summaries that work well when read aloud. Use clear, conversational language. Avoid complex formatting or special characters."

/-- The user prompt up to and including the requirements block, for
`target_words = target_duration_minutes * 150`. -/
def summaryPromptHead (target_duration_minutes : Nat) : Str :=
  str "Summarize the following article in approximately "
    ++ natStr (target_duration_minutes * 150)
    ++ str " words (for a " ++ natStr target_duration_minutes
    ++ str "-minute audio narration at 150 words per minute).\n\nRequirements:\n- Make it engaging and natural for audio listening\n- Use conversational language\n- Include key facts and insights\n- Start with a brief hook\n- End with a conclusion or key takeaway\n- Avoid bullet points, use flowing prose\n\n"

/-- The full user prompt: head, optional title line, then
`f"Article Text:\n{text[:8000]}"`. -/
def summaryUserPrompt (target_duration_minutes : Nat) (title text : Str) : Str :=
  (if title.isEmpty then summaryPromptHead target_duration_minutes
   else summaryPromptHead target_duration_minutes
     ++ str "Article Title: " ++ title ++ str "\n\n")
    ++ str "Article Text:\n" ++ text.take 8000

/-- `response.choices[0].message.content` of the chat completion: `None` is a
possible API value (`.strip()` on it raises, caught by the `except`). -/
structure ChatResponse where
  content : Option Str

/-- `SummarizationService.create_audio_summary(text, title,
target_duration_minutes)`. -/
def create_audio_summary (modelCall : Str → Str → Except Err ChatResponse)
    (text : Str) (title : Str) (target_duration_minutes : Nat) : Option Str :=
  -- `if not text or not text.strip(): return None`
  if (pyStrip text).isEmpty then none
  else
    match modelCall summarySystemPrompt
        (summaryUserPrompt target_duration_minutes title text) with
    | .error _ => none               -- upstream failure, caught: return None
    | .ok resp =>
      match resp.content with
      | none => none                 -- None.strip() raises, caught: return None
      | some c => some (pyStrip c)   -- summary = content.strip()

/-! ## `generate_news_with_audio` (backend/parallel_api/main.py)

`POST /news/generate-with-audio`: Parallel search, Parallel extract, then a
per-item loop (summarize with Azure OpenAI, synthesize with ElevenLabs, embed,
`db.add`/`db.flush`), one `db.commit`, and a summary response.  Each item's
iteration is wrapped in `try ... except Exception` that appends
`f"Article {idx} ({result.url}): {e}"` and continues; the whole body is
wrapped in a `try ... except Exception` that rolls back and raises
`HTTPException(500)`.  The `tts_service is None` guard is taken as passed
(the import succeeded).  External calls are oracles, bundled per item. -/

/-- One result of the Parallel Extract call (`ParallelExtractResult`). -/
structure ExtractItem where
  url : Str
  title : Option Str
  excerpts : Option (List Str)
  full_content : Option Str
  deriving DecidableEq

/-- Outcomes of the external calls made while processing one item. -/
structure ItemOracles where
  /-- `create_audio_summary` on the item's content: total, per its model. -/
  summary : Option Str
  /-- `tts_service.generate_audio_from_text`: audio path, or raises. -/
  tts : Except Err Str
  /-- `embedding_service.generate_embedding` on the content. -/
  embedding : Except Err (Option Vec)
  /-- `db.add` + `db.flush`: the id given to the pending row, or raises. -/
  flush : Except Err Nat

/-- An extracted item together with its per-item oracle outcomes. -/
structure ProcItem where
  item : ExtractItem
  oracles : ItemOracles

/-- One entry of the response's `articles` list (`ArticleAudioInfo`). -/
structure ArticleAudioInfo where
  article_id : Nat
  title : Str
  source : Str
  audio_filename : Str
  audio_path : Str
  summary_word_count : Nat
  deriving DecidableEq

/-- The `NewsWithAudioResponse` pydantic model. -/
structure NewsWithAudioResponse where
  success : Bool
  query : Str
  articles_found : Nat
  articles_processed : Nat
  articles_with_audio : Nat
  articles : List ArticleAudioInfo
  errors : List Str
  deriving DecidableEq

/-- The workflow's non-per-item collaborators. -/
structure NewsEnv where
  /-- `parallel_client.beta.search`: raises, or the number of results found. -/
  search : Except Err Nat
  /-- `parallel_client.beta.extract`: raises, or the extracted items, each
  carrying the outcomes of the external calls its processing will make. -/
  extract : Except Err (List ProcItem)
  /-- The final `db.commit()`. -/
  commit : Except Err Unit
  /-- The timestamp used in audio filenames. -/
  timestamp : Str

/-- The content selection at the top of the loop: first excerpt if the
excerpts list is truthy, else truthy `full_content` capped at 10000
characters, else no content. -/
def contentSelect (it : ExtractItem) : Option Str :=
  match it.excerpts with
  | some (e :: _) => some e
  | _ =>
    match it.full_content with
    | some fc => if fc.isEmpty then none else some (fc.take 10000)
    | none => none

/-- The except-branch error entry
`f"Article {idx} ({result.url}): {str(e)}"`. -/
def itemExcMsg (idx : Nat) (url : Str) (e : Err) : Str :=
  str "Article " ++ natStr idx ++ str " (" ++ url ++ str "): " ++ e

/-- Processing of one item: either the `articles` entry it contributes, or
the error string it appends. -/
def itemOutcome (ts : Str) (idx : Nat) (p : ProcItem) :
    Except Str ArticleAudioInfo :=
  match contentSelect p.item with
  | none => .error (str "Article " ++ natStr idx ++ str ": No text content")
  | some _text_content =>
    match p.oracles.summary with
    | none =>
        .error (str "Article " ++ natStr idx
          ++ str ": Failed to generate summary")
    | some s =>
      if s.isEmpty then      -- `if not summary_text:` is also true for ""
        .error (str "Article " ++ natStr idx
          ++ str ": Failed to generate summary")
      else
        match p.oracles.tts with
        | .error e => .error (itemExcMsg idx p.item.url e)
        | .ok audio_path =>
          match p.oracles.embedding with
          | .error e => .error (itemExcMsg idx p.item.url e)
          | .ok _embedding =>
            match p.oracles.flush with
            | .error e => .error (itemExcMsg idx p.item.url e)
            | .ok article_id =>
                .ok { article_id := article_id
                      title := if pyTruthy p.item.title then p.item.title.getD []
                               else str "Untitled"
                      source := p.item.url
                      audio_filename := str "article_" ++ natStr (idx + 1)
                        ++ str "_" ++ ts ++ str ".mp3"
                      audio_path := audio_path
                      summary_word_count := pyWordCount s }

/-- The mutable parts of `response_data` the loop updates. -/
structure LoopState where
  articles_processed : Nat
  articles_with_audio : Nat
  articles : List ArticleAudioInfo
  errors : List Str

/-- The `for idx, result in enumerate(extract_result.results)` loop. -/
def runItems (ts : Str) : Nat → List ProcItem → LoopState → LoopState
  | _, [], st => st
  | idx, p :: rest, st =>
    match itemOutcome ts idx p with
    | .ok info =>
        runItems ts (idx + 1) rest
          { st with articles_processed := st.articles_processed + 1
                    articles_with_audio := st.articles_with_audio + 1
                    articles := st.articles ++ [info] }
    | .error e =>
        runItems ts (idx + 1) rest { st with errors := st.errors ++ [e] }

/-- `POST /news/generate-with-audio` (`generate_news_with_audio`). -/
def generate_news_with_audio (env : NewsEnv) (query : Str) :
    Except HttpErr NewsWithAudioResponse :=
  match env.search with
  | .error e => .error (500, e)       -- outer except: rollback + HTTPException
  | .ok found =>
    if found = 0 then
      .ok { success := false, query := query, articles_found := 0
            articles_processed := 0, articles_with_audio := 0
            articles := [], errors := [str "No articles found"] }
    else
      match env.extract with
      | .error e => .error (500, e)
      | .ok items =>
        if items.isEmpty then
          .ok { success := false, query := query, articles_found := found
                articles_processed := 0, articles_with_audio := 0
                articles := [], errors := [str "No content extracted"] }
        else
          let st := runItems env.timestamp 0 items
            { articles_processed := 0, articles_with_audio := 0
              articles := [], errors := [] }
          match env.commit with
          | .error e => .error (500, e)
          | .ok _ =>
              .ok { success := decide (0 < st.articles_with_audio)
                    query := query
                    articles_found := found
                    articles_processed := st.articles_processed
                    articles_with_audio := st.articles_with_audio
                    articles := st.articles
                    errors := st.errors }

/-- The per-item error entries, stated as a direct recursion over the items
(used to characterise the loop's accumulator). -/
def itemErrors (ts : Str) : Nat → List ProcItem → List Str
  | _, [] => []
  | idx, p :: rest =>
    match itemOutcome ts idx p with
    | .ok _ => itemErrors ts (idx + 1) rest
    | .error e => e :: itemErrors ts (idx + 1) rest

/-- The per-item success entries, as a direct recursion over the items. -/
def itemInfos (ts : Str) : Nat → List ProcItem → List ArticleAudioInfo
  | _, [] => []
  | idx, p :: rest =>
    match itemOutcome ts idx p with
    | .ok info => info :: itemInfos ts (idx + 1) rest
    | .error _ => itemInfos ts (idx + 1) rest

/-! ## Concrete instances used by witnesses and counterexamples -/

/-- An article dict with no category or source key at all. -/
def aGen : ArticleDict := { summary := some (str "S"), text := some (str "T") }

/-- An article dict whose `category_name` and `source` keys are present but
hold SQL NULL (Python `None`). -/
def aNull : ArticleDict :=
  { summary := some (str "S"), text := some (str "T")
    category_name := some none, source := some none }

/-- A 1001-character narration content. -/
def aLong : ArticleDict := { summary := some (List.replicate 1001 'a') }

/-- A content of 1003 characters whose tail beyond position 1000 coincides
with the truncation marker. -/
def cMarker : Str := List.replicate 1000 'a' ++ str "..."

/-- An article carrying `cMarker` as its narration content. -/
def aMarker : ArticleDict := { summary := some cMarker }

/-- Two stored articles with equal distance to every query, fetched in the
order id 2 before id 1. -/
def tieStore : List DbArticle := [⟨2, some [1]⟩, ⟨1, some [1]⟩]

/-- A one-article store with an embedded vector. -/
def oneStore : List DbArticle := [⟨1, some [1]⟩]

/-- A pipeline environment in which every external call succeeds. -/
def envOk : PipelineEnv :=
  { fetchUserArticles := .ok [aGen]
    fetchCategoryArticles := .ok [aGen]
    fetchIdArticles := .ok [aGen]
    ttsConvert := fun _ => .ok ()
    s3Upload := .ok ()
    insertPodcast := .ok 7
    timestamp := str "20240101_000000"
    bucket := str "bucket"
    region := str "us-west-2" }

/-- The response the user-preferences endpoint produces under `envOk`. -/
def respOk : PodcastResponse :=
  { success := true
    audio_path := s3Url envOk
    filename := pyBasename (s3Url envOk)
    article_count := 1
    message := str "Successfully generated podcast with " ++ natStr 1
      ++ str " articles" }

/-- An extract result with a URL but no excerpts and no full content,
whose (unreached) per-item calls all fail. -/
def itemNoContent : ProcItem :=
  { item := { url := str "http://example.com/a", title := none
              excerpts := none, full_content := none }
    oracles := { summary := none, tts := .error (str "x")
                 embedding := .ok none, flush := .error (str "x") } }

/-- An extract result whose processing succeeds end to end. -/
def itemGood : ProcItem :=
  { item := { url := str "http://example.com/b", title := some (str "B")
              excerpts := some [str "body text"], full_content := none }
    oracles := { summary := some (str "two words"), tts := .ok (str "p.mp3")
                 embedding := .ok (some [1]), flush := .ok 3 } }

/-- A batch environment around the no-content item. -/
def envNoContent : NewsEnv :=
  { search := .ok 1, extract := .ok [itemNoContent], commit := .ok ()
    timestamp := str "TS" }

/-- A batch environment around one failing and one succeeding item. -/
def envMixed : NewsEnv :=
  { search := .ok 2, extract := .ok [itemNoContent, itemGood], commit := .ok ()
    timestamp := str "TS" }

/-- The response `generate_news_with_audio` produces under `envNoContent`. -/
def respNoContent : NewsWithAudioResponse :=
  { success := false, query := str "q", articles_found := 1
    articles_processed := 0, articles_with_audio := 0
    articles := [], errors := [str "Article 0: No text content"] }

/-! ## Theorems -/

theorem articleParts_eq_map (idx : Nat) (articles : List ArticleDict) :
    articleParts idx articles
      = (List.enumFrom idx articles).map (fun p => articleSegment p.1 p.2) := by
  induction articles generalizing idx with
  | nil => rfl
  | cons a rest ih => simp [articleParts, List.enumFrom, ih]

theorem create_podcast_script_eq (articles : List ArticleDict) :
    create_podcast_script articles
      = introPart articles.length
          ++ List.flatten ((List.enumFrom 1 articles).map
                (fun p => articleSegment p.1 p.2))
          ++ outroPart := by
  simp [create_podcast_script, articleParts_eq_map, List.flatten_append]

/-- C4: the assembled script is exactly one intro part stating the number of
stories, then one segment per input article in input order (position `i` of
the input contributes the segment labelled `i+1`, duplicates included), then
the fixed outro; the empty list yields the intro for 0 stories and the outro
and nothing else (the assembler is a total function, so it cannot raise). -/
theorem script_structure (articles : List ArticleDict) :
    create_podcast_script articles
      = introPart articles.length
          ++ List.flatten ((List.enumFrom 1 articles).map
                (fun p => articleSegment p.1 p.2))
          ++ outroPart
    ∧ (articleParts 1 articles).length = articles.length
    ∧ create_podcast_script []
        = str "Welcome to your personalized news podcast. Here are the top 0 stories for you today.\n\nThat's all for today's news. Thank you for listening!" := by
  refine ⟨create_podcast_script_eq articles, ?_, ?_⟩
  · rw [articleParts_eq_map]
    simp
  · decide

/-- C5 (amended): for an article whose narration content is longer than 1000
characters, the assembled segment carries exactly the first 1000 characters of
that content followed by the `...` marker (the claim's further assertion that
the untruncated content never appears in the script is refuted by
`truncated_content_can_reappear`). -/
theorem truncation_keeps_exactly_1000 (idx : Nat) (a : ArticleDict)
    (h : 1000 < (contentOf a).length) :
    articleSegment idx a
      = str "Story " ++ natStr idx ++ str ": " ++ categoryText a ++ str "\n"
          ++ ((contentOf a).take 1000 ++ str "...") ++ str "\n"
          ++ str "Source: " ++ sourceText a ++ str "\n\n"
    ∧ ((contentOf a).take 1000).length = 1000 := by
  constructor
  · simp only [articleSegment, truncateContent, if_pos h]
  · rw [List.length_take]
    omega

/-- Witness for `truncation_keeps_exactly_1000` at a 1001-character summary. -/
theorem truncation_keeps_exactly_1000_witness :
    1000 < (contentOf aLong).length
    ∧ (articleSegment 1 aLong
        = str "Story " ++ natStr 1 ++ str ": " ++ categoryText aLong ++ str "\n"
            ++ ((contentOf aLong).take 1000 ++ str "...") ++ str "\n"
            ++ str "Source: " ++ sourceText aLong ++ str "\n\n"
      ∧ ((contentOf aLong).take 1000).length = 1000) := by
  have h : 1000 < (contentOf aLong).length := by
    show 1000 < (if (List.replicate 1001 'a').isEmpty
      then aLong.text.getD [] else List.replicate 1001 'a').length
    simp only [List.isEmpty_replicate]
    norm_num
  exact ⟨h, truncation_keeps_exactly_1000 1 aLong h⟩

/-- C5 counterexample: a narration content of 1003 characters — 1000 `a`s
followed by `...` — is longer than 1000 characters, yet the untruncated
content appears verbatim in the assembled script (truncation reproduces it
exactly), refuting "the original untruncated content does not appear anywhere
in the assembled script". -/
theorem truncated_content_can_reappear :
    1000 < cMarker.length ∧ cMarker <:+: create_podcast_script [aMarker] := by
  have hlen : cMarker.length = 1003 := by
    show (List.replicate 1000 'a' ++ str "...").length = 1003
    rw [List.length_append, List.length_replicate]
    decide
  have hgt : 1000 < cMarker.length := by
    rw [hlen]
    omega
  have hne : cMarker.isEmpty = false := by
    rw [List.isEmpty_eq_false]
    intro hnil
    have h1 := congrArg List.length hnil
    rw [hlen] at h1
    simp at h1
  have hc : contentOf aMarker = cMarker := by
    show (if cMarker.isEmpty then aMarker.text.getD [] else cMarker) = cMarker
    rw [hne]
    rfl
  have htake : cMarker.take 1000 = List.replicate 1000 'a' := by
    show (List.replicate 1000 'a' ++ str "...").take 1000 = List.replicate 1000 'a'
    exact List.take_left' (by rw [List.length_replicate])
  have htr : truncateContent cMarker = cMarker := by
    unfold truncateContent
    rw [if_pos hgt, htake]
    rfl
  refine ⟨hgt, ?_⟩
  refine ⟨introPart 1 ++ (str "Story " ++ natStr 1 ++ str ": "
    ++ categoryText aMarker ++ str "\n"), str "\n" ++ str "Source: "
    ++ sourceText aMarker ++ str "\n\n" ++ outroPart, ?_⟩
  simp only [create_podcast_script, articleParts, articleSegment, hc, htr,
    List.flatten, List.append_assoc, List.append_nil, List.length_cons,
    List.length_nil, List.singleton_append, List.cons_append, List.nil_append]

/-- C6 (amended): the segment narrates the summary when it is non-empty and
falls back to the text otherwise; the defaults `General` and
`Unknown source` are used exactly when the `category_name` / `source` key is
absent from the dict — a key that is present but holds SQL NULL is rendered
by the f-string as the literal text `None` instead (refuting the claim's
"including articles whose category or source field is present but null",
see `null_category_renders_as_none`). -/
theorem segment_field_rendering (idx : Nat) (a : ArticleDict) :
    articleSegment idx a
      = str "Story " ++ natStr idx ++ str ": " ++ categoryText a ++ str "\n"
          ++ truncateContent (contentOf a) ++ str "\n"
          ++ str "Source: " ++ sourceText a ++ str "\n\n"
    ∧ (∀ s, a.summary = some s → s.isEmpty = false → contentOf a = s)
    ∧ ((a.summary = none ∨ a.summary = some []) → contentOf a = a.text.getD [])
    ∧ (a.category_name = none → categoryText a = str "General")
    ∧ (a.category_name = some none → categoryText a = str "None")
    ∧ (a.source = none → sourceText a = str "Unknown source")
    ∧ (a.source = some none → sourceText a = str "None") := by
  refine ⟨rfl, ?_, ?_, ?_, ?_, ?_, ?_⟩
  · intro s hs hne
    simp [contentOf, hs, hne]
  · rintro (hs | hs) <;> simp [contentOf, hs]
  · intro hcat
    simp [categoryText, hcat]
  · intro hcat
    simp [categoryText, hcat]
  · intro hsrc
    simp [sourceText, hsrc]
  · intro hsrc
    simp [sourceText, hsrc]

/-- Witness for `segment_field_rendering`: at `aGen` (keys absent) the
defaults are used, and its summary is narrated. -/
theorem segment_field_rendering_witness :
    categoryText aGen = str "General"
    ∧ sourceText aGen = str "Unknown source"
    ∧ contentOf aGen = str "S" :=
  ⟨(segment_field_rendering 1 aGen).2.2.2.1 rfl,
   (segment_field_rendering 1 aGen).2.2.2.2.2.1 rfl,
   (segment_field_rendering 1 aGen).2.1 (str "S") rfl (by decide)⟩

/-- C6 counterexample: for an article whose `category_name` and `source` keys
are present but hold NULL, the segment label reads `Story 1: None` rather
than `Story 1: General`, and the source line reads `Source: None` rather
than `Source: Unknown source`. -/
theorem null_category_renders_as_none :
    (str "Story 1: None\n").isPrefixOf (articleSegment 1 aNull) = true
    ∧ (str "Story 1: General").isPrefixOf (articleSegment 1 aNull) = false
    ∧ (str "\nSource: None\n\n" <:+ articleSegment 1 aNull)
    ∧ ¬ (str "Source: Unknown source" <:+: articleSegment 1 aNull) := by
  refine ⟨?_, ?_, ?_, ?_⟩ <;> decide

theorem fetchRows_distance_isSome (dist : Vec → Vec → ℚ) (q : Vec)
    {store : List DbArticle} (hvec : ∀ a ∈ store, a.vector.isSome = true) :
    ∀ r ∈ fetchRows dist q store, r.distance.isSome = true := by
  intro r hr
  simp only [fetchRows, List.mem_map] at hr
  obtain ⟨a, ha, rfl⟩ := hr
  have hv := hvec a ha
  cases hv2 : a.vector with
  | none => rw [hv2] at hv; simp at hv
  | some v => simp [hv2]

/-- On the success path (non-empty query embedding, database reachable, every
stored article embedded) the search returns the Python-sorted prefix. -/
theorem search_success_eq (x : ℚ) (xs : List ℚ) (dist : Vec → Vec → ℚ)
    (store : List DbArticle) (top_k : Nat)
    (hvec : ∀ a ∈ store, a.vector.isSome = true) :
    search_by_vector_similarity (some (x :: xs)) dist false false store top_k
      = .ok ((List.insertionSort rowLE (fetchRows dist (x :: xs) store)).take
          top_k) := by
  have hsome := fetchRows_distance_isSome dist (x :: xs) hvec
  by_cases hE : (fetchRows dist (x :: xs) store).isEmpty = true
  · have hnil : fetchRows dist (x :: xs) store = [] := List.isEmpty_iff.mp hE
    simp [search_by_vector_similarity, hnil]
  · have hE' : (fetchRows dist (x :: xs) store).isEmpty = false :=
      Bool.eq_false_iff.mpr hE
    have hany : (fetchRows dist (x :: xs) store).any
        (fun r => r.distance.isNone) = false := by
      rw [List.any_eq_false]
      intro rr hrr
      have hs := hsome rr hrr
      cases hd : rr.distance with
      | none => rw [hd] at hs; simp at hs
      | some d => simp [hd]
    have hany2 : (((fetchRows dist (x :: xs) store).insertionSort
        rowLE).take top_k).any (fun r => r.distance.isNone) = false := by
      rw [List.any_eq_false]
      intro rr hrr
      have hmem : rr ∈ fetchRows dist (x :: xs) store :=
        (List.mem_insertionSort rowLE).1 (List.take_subset _ _ hrr)
      have hs := hsome rr hmem
      cases hd : rr.distance with
      | none => rw [hd] at hs; simp at hs
      | some d => simp [hd]
    simp [search_by_vector_similarity, hE', hany, hany2]

/-- C2 (amended): on the success path the returned list is sorted ascending
by the fetched `distance` column, contains at most `top_k` rows, and every
returned row is a fetched row; when the fetched distances are pairwise
distinct the order is strictly ascending.  Ties, however, are returned in
the order the rows came back from the table scan — Python's `sorted` is
stable and no id tie-break exists in the code (see
`ties_not_broken_by_id`). -/
theorem similarity_search_sorted (q : Vec) (dist : Vec → Vec → ℚ)
    (store : List DbArticle) (top_k : Nat) (hq : q ≠ [])
    (hvec : ∀ a ∈ store, a.vector.isSome = true) :
    ∃ l, search_by_vector_similarity (some q) dist false false store top_k
          = .ok l
      ∧ l.length ≤ top_k
      ∧ l.Pairwise rowLE
      ∧ (∀ r ∈ l, r ∈ fetchRows dist q store)
      ∧ ((fetchRows dist q store).Pairwise
            (fun a b => a.distance ≠ b.distance) →
          l.Pairwise (fun a b => a.distance.getD 0 < b.distance.getD 0)) := by
  obtain ⟨x, xs, rfl⟩ : ∃ x xs, q = x :: xs := by
    cases q with
    | nil => exact absurd rfl hq
    | cons x xs => exact ⟨x, xs, rfl⟩
  refine ⟨_, search_success_eq x xs dist store top_k hvec, ?_, ?_, ?_, ?_⟩
  · rw [List.length_take]
    omega
  · exact ((List.sorted_insertionSort rowLE _).sublist
      (List.take_sublist _ _) : List.Sorted rowLE _)
  · intro r hr
    exact (List.mem_insertionSort rowLE).1 (List.take_subset _ _ hr)
  · intro hne
    have hsort : (List.insertionSort rowLE
        (fetchRows dist (x :: xs) store)).Pairwise rowLE :=
      List.sorted_insertionSort rowLE _
    have hperm := List.perm_insertionSort rowLE (fetchRows dist (x :: xs) store)
    have hne2 : (List.insertionSort rowLE
        (fetchRows dist (x :: xs) store)).Pairwise
          (fun a b => a.distance ≠ b.distance) :=
      (List.Perm.pairwise_iff (fun h => h.symm) hperm).mpr hne
    have hsort' := hsort.sublist (List.take_sublist top_k _)
    have hne3 := hne2.sublist (List.take_sublist top_k _)
    have hsome := fetchRows_distance_isSome dist (x :: xs) hvec
    refine List.Pairwise.imp_of_mem ?_ (hsort'.and hne3)
    intro a b ha hb hab
    obtain ⟨hle, hnab⟩ := hab
    have hA := hsome a ((List.mem_insertionSort rowLE).1
      (List.take_subset _ _ ha))
    have hB := hsome b ((List.mem_insertionSort rowLE).1
      (List.take_subset _ _ hb))
    cases hda : a.distance with
    | none => rw [hda] at hA; simp at hA
    | some da =>
      cases hdb : b.distance with
      | none => rw [hdb] at hB; simp at hB
      | some db =>
        have hle' : da ≤ db := by
          have := hle
          rw [rowLE, hda, hdb] at this
          simpa using this
        have hne' : da ≠ db := by
          intro hcontra
          exact hnab (by rw [hda, hdb, hcontra])
        simpa using lt_of_le_of_ne hle' hne'

/-- Witness for `similarity_search_sorted` on a two-article store with
distinct distances. -/
theorem similarity_search_sorted_witness :
    ∃ l, search_by_vector_similarity (some [1]) (fun v _ => v.headD 0) false
          false [⟨1, some [2]⟩, ⟨2, some [1]⟩] 10 = .ok l
      ∧ l.length ≤ 10
      ∧ l.Pairwise rowLE
      ∧ (∀ r ∈ l, r ∈ fetchRows (fun v _ => v.headD 0) [1]
          [⟨1, some [2]⟩, ⟨2, some [1]⟩])
      ∧ ((fetchRows (fun v _ => v.headD 0) [1]
            [⟨1, some [2]⟩, ⟨2, some [1]⟩]).Pairwise
              (fun a b => a.distance ≠ b.distance) →
          l.Pairwise (fun a b => a.distance.getD 0 < b.distance.getD 0)) :=
  similarity_search_sorted [1] (fun v _ => v.headD 0)
    [⟨1, some [2]⟩, ⟨2, some [1]⟩] 10 (by decide)
    (by intro a ha; fin_cases ha <;> decide)

/-- C2 counterexample: two stored articles tie at distance 0 and are fetched
in the order id 2, id 1; the search returns them in fetch order `[2, 1]`,
not ascending by id as the claim states. -/
theorem ties_not_broken_by_id :
    (search_by_vector_similarity (some [1]) (fun _ _ => 0) false false
        tieStore 10).toOption.map (fun l => l.map FetchedRow.id) = some [2, 1]
    ∧ ¬ ((search_by_vector_similarity (some [1]) (fun _ _ => 0) false false
        tieStore 10).toOption.map (fun l => l.map FetchedRow.id)
          = some [1, 2]) := by
  constructor <;> decide

/-- C3: whatever the store contents and the query, an article whose `vector`
is NULL never appears in a similarity-search result list.  (In this code the
guarantee holds for an incidental reason: a NULL vector yields a NULL
`distance`, and every path that would surface such a row — the `sorted` call
with at least two rows, or the result-printing loop otherwise — raises a
`TypeError` that the `except` turns into an empty result.) -/
theorem similarity_search_excludes_null_vectors (query_embedding : Option Vec)
    (dist : Vec → Vec → ℚ) (connFails queryFails : Bool)
    (store : List DbArticle) (top_k : Nat) (l : List FetchedRow)
    (h : search_by_vector_similarity query_embedding dist connFails queryFails
          store top_k = .ok l) :
    ∀ r ∈ l, r.vector.isSome = true := by
  intro r hr
  unfold search_by_vector_similarity at h
  split at h
  · cases h; simp at hr
  · cases h; simp at hr
  · split at h
    · exact Except.noConfusion h
    · split at h
      · cases h; simp at hr
      · dsimp only at h
        split at h
        · cases h; simp at hr
        · split at h
          · cases h; simp at hr
          · split at h
            · cases h; simp at hr
            next hguard =>
              cases h
              have hds : r.distance ≠ none := by
                rw [Bool.not_eq_true, List.any_eq_false] at hguard
                have := hguard r hr
                simpa using this
              have hmem : r ∈ fetchRows dist _ store :=
                (List.mem_insertionSort rowLE).1 (List.take_subset _ _ hr)
              simp only [fetchRows, List.mem_map] at hmem
              obtain ⟨a, _, rfl⟩ := hmem
              cases hv : a.vector with
              | none => rw [hv] at hds; simp at hds
              | some v => simp

/-- Witness for `similarity_search_excludes_null_vectors` on a one-article
store whose article is embedded. -/
theorem similarity_search_excludes_null_vectors_witness :
    (FetchedRow.mk 1 (some [1]) (some 0)).vector.isSome = true :=
  similarity_search_excludes_null_vectors (some [1]) (fun _ _ => 0) false false
    oneStore 5 [⟨1, some [1], some 0⟩] rfl ⟨1, some [1], some 0⟩ (by decide)

/-- C7 (amended): an embedding failure and a failure of the SQL query itself
both produce an *empty-list success*, indistinguishable from the no-match
outcome; only a connection-stage storage failure surfaces as a raised
exception (an unmapped psycopg2 error, not a `StorageError` kind).  An empty
result therefore does not imply that the store has no matching articles. -/
theorem failure_outcomes_collapse_to_empty (dist : Vec → Vec → ℚ)
    (cf qf : Bool) (store : List DbArticle) (top_k : Nat) (q : Vec)
    (hq : q ≠ []) :
    search_by_vector_similarity none dist cf qf store top_k = .ok []
    ∧ search_by_vector_similarity (some []) dist cf qf store top_k = .ok []
    ∧ search_by_vector_similarity (some q) dist false true store top_k = .ok []
    ∧ search_by_vector_similarity (some q) dist true qf store top_k
        = .error (str "psycopg2 connect raised")
    ∧ search_by_vector_similarity (some q) dist false false [] top_k
        = .ok [] := by
  obtain ⟨x, xs, rfl⟩ : ∃ x xs, q = x :: xs := by
    cases q with
    | nil => exact absurd rfl hq
    | cons x xs => exact ⟨x, xs, rfl⟩
  refine ⟨rfl, rfl, ?_, ?_, ?_⟩ <;> simp [search_by_vector_similarity, fetchRows]

/-- Witness for `failure_outcomes_collapse_to_empty`. -/
theorem failure_outcomes_collapse_to_empty_witness :
    search_by_vector_similarity none (fun _ _ => 0) false false oneStore 10
        = .ok []
    ∧ search_by_vector_similarity (some []) (fun _ _ => 0) false false
        oneStore 10 = .ok []
    ∧ search_by_vector_similarity (some [1]) (fun _ _ => 0) false true
        oneStore 10 = .ok []
    ∧ search_by_vector_similarity (some [1]) (fun _ _ => 0) true false
        oneStore 10 = .error (str "psycopg2 connect raised")
    ∧ search_by_vector_similarity (some [1]) (fun _ _ => 0) false false [] 10
        = .ok [] :=
  failure_outcomes_collapse_to_empty (fun _ _ => 0) false false oneStore 10 [1]
    (by decide)

/-- C7 counterexample: over a store that does contain an embedded article, an
embedding failure and a query-stage storage failure each return the empty
list as a non-error result — not an `EmbeddingUnavailable` or `StorageError`
kind — so the claim that these failures never surface as an empty-list
result is false. -/
theorem failures_masked_as_empty_result :
    search_by_vector_similarity none (fun _ _ => 0) false false oneStore 10
        = .ok []
    ∧ search_by_vector_similarity (some [1]) (fun _ _ => 0) false true
        oneStore 10 = .ok []
    ∧ search_by_vector_similarity (some [1]) (fun _ _ => 0) false false
        oneStore 10 ≠ .ok [] := by
  refine ⟨rfl, rfl, ?_⟩
  intro hcontra
  have h1 : ([⟨1, some [1], some 0⟩] : List FetchedRow) = [] := by
    have h0 : search_by_vector_similarity (some [1]) (fun _ _ => 0) false false
        oneStore 10 = .ok [⟨1, some [1], some 0⟩] := rfl
    rw [h0] at hcontra
    exact Except.ok.inj hcontra
  simp at h1

theorem generate_podcast_local_no_effects (env : PipelineEnv)
    (fetch : Except Err (List ArticleDict)) (d : Str) :
    (generate_podcast_local env fetch d).persisted = []
    ∧ (generate_podcast_local env fetch d).uploaded = [] := by
  cases fetch with
  | error e => exact ⟨rfl, rfl⟩
  | ok articles =>
    by_cases hA : articles.isEmpty = true
    · simp [generate_podcast_local, hA]
    · have hA' : articles.isEmpty = false := Bool.eq_false_iff.mpr hA
      cases ht : env.ttsConvert (create_podcast_script articles) with
      | error e => simp [generate_podcast_local, hA', ht]
      | ok u => simp [generate_podcast_local, hA', ht]

theorem s3Url_ne_nil (env : PipelineEnv) : s3Url env ≠ [] := by
  intro hc
  have h2 : str "https://" = [] ∧ _ := List.append_eq_nil.mp hc
  exact absurd h2.1 (by decide)

/-- C1 (amended): only the user-preferences pipeline uploads the rendered
audio and persists a `podcasts` row — on success it persists exactly one
record carrying the assembled script and the (never-empty) S3 URL of the one
uploaded object, and on any failure after retrieval it persists nothing; the
explicit-IDs and categories pipelines never upload and never persist a
record, even on success (refuting the claim for those two variants, see
`categories_success_persists_nothing`). -/
theorem pipeline_persistence (env : PipelineEnv) (user_id : Int) :
    (∀ resp,
      (generate_podcast_from_user_preferences env user_id).response = .ok resp →
      ∃ pid articles,
        env.fetchUserArticles = .ok articles
        ∧ articles ≠ []
        ∧ (generate_podcast_from_user_preferences env user_id).persisted
            = [{ id := pid, user_id := user_id
                 script := create_podcast_script articles
                 s3_link := s3Url env, spotify_link := none }]
        ∧ (generate_podcast_from_user_preferences env user_id).uploaded
            = [s3Key env]
        ∧ s3Url env ≠ []
        ∧ resp.audio_path = s3Url env)
    ∧ ((generate_podcast_from_user_preferences env user_id).response.isOk
          = false →
        (generate_podcast_from_user_preferences env user_id).persisted = [])
    ∧ (generate_podcast_from_categories env).persisted = []
    ∧ (generate_podcast_from_categories env).uploaded = []
    ∧ (generate_podcast_from_articles env).persisted = []
    ∧ (generate_podcast_from_articles env).uploaded = [] := by
  refine ⟨?_, ?_,
    (generate_podcast_local_no_effects env env.fetchCategoryArticles _).1,
    (generate_podcast_local_no_effects env env.fetchCategoryArticles _).2,
    (generate_podcast_local_no_effects env env.fetchIdArticles _).1,
    (generate_podcast_local_no_effects env env.fetchIdArticles _).2⟩
  · intro resp hresp
    cases hf : env.fetchUserArticles with
    | error e => simp [generate_podcast_from_user_preferences, hf] at hresp
    | ok articles =>
      by_cases hA : articles.isEmpty = true
      · simp [generate_podcast_from_user_preferences, hf, hA] at hresp
      · have hA' : articles.isEmpty = false := Bool.eq_false_iff.mpr hA
        cases ht : env.ttsConvert (create_podcast_script articles) with
        | error e =>
          simp [generate_podcast_from_user_preferences, hf, hA', ht] at hresp
        | ok u =>
          cases hs : env.s3Upload with
          | error e =>
            simp [generate_podcast_from_user_preferences, hf, hA', ht, hs]
              at hresp
          | ok v =>
            cases hi : env.insertPodcast with
            | error e =>
              simp [generate_podcast_from_user_preferences, hf, hA', ht, hs,
                hi] at hresp
            | ok pid =>
              refine ⟨pid, articles, rfl, ?_, ?_, ?_, s3Url_ne_nil env, ?_⟩
              · exact fun hnil => hA (by rw [hnil]; rfl)
              · simp [generate_podcast_from_user_preferences, hf, hA', ht,
                  hs, hi]
              · simp [generate_podcast_from_user_preferences, hf, hA', ht,
                  hs, hi]
              · have := hresp
                simp [generate_podcast_from_user_preferences, hf, hA', ht,
                  hs, hi] at this
                rw [← this]
  · intro hnotok
    cases hf : env.fetchUserArticles with
    | error e => simp [generate_podcast_from_user_preferences, hf]
    | ok articles =>
      by_cases hA : articles.isEmpty = true
      · simp [generate_podcast_from_user_preferences, hf, hA]
      · have hA' : articles.isEmpty = false := Bool.eq_false_iff.mpr hA
        cases ht : env.ttsConvert (create_podcast_script articles) with
        | error e =>
          simp [generate_podcast_from_user_preferences, hf, hA', ht]
        | ok u =>
          cases hs : env.s3Upload with
          | error e =>
            simp [generate_podcast_from_user_preferences, hf, hA', ht, hs]
          | ok v =>
            cases hi : env.insertPodcast with
            | error e =>
              simp [generate_podcast_from_user_preferences, hf, hA', ht, hs,
                hi]
            | ok pid =>
              rw [show (generate_podcast_from_user_preferences env
                  user_id).response.isOk = true by
                simp [generate_podcast_from_user_preferences, hf, hA', ht,
                  hs, hi, Except.isOk, Except.toBool]] at hnotok
              exact absurd hnotok (by simp)

/-- Witness for `pipeline_persistence`: the all-success environment `envOk`
persists exactly one record referencing the uploaded object. -/
theorem pipeline_persistence_witness :
    ∃ pid articles,
      envOk.fetchUserArticles = .ok articles
      ∧ articles ≠ []
      ∧ (generate_podcast_from_user_preferences envOk 0).persisted
          = [{ id := pid, user_id := 0
               script := create_podcast_script articles
               s3_link := s3Url envOk, spotify_link := none }]
      ∧ (generate_podcast_from_user_preferences envOk 0).uploaded
          = [s3Key envOk]
      ∧ s3Url envOk ≠ []
      ∧ respOk.audio_path = s3Url envOk :=
  (pipeline_persistence envOk 0).1 respOk rfl

/-- C1 counterexample: a categories run in which retrieval and synthesis
succeed produces a success response, yet uploads nothing and persists no
`podcasts` record — refuting the claim that every successful run, whichever
selection variant produced it, uploads the audio and persists exactly one
record. -/
theorem categories_success_persists_nothing :
    (generate_podcast_from_categories envOk).response.isOk = true
    ∧ (generate_podcast_from_categories envOk).persisted = []
    ∧ (generate_podcast_from_categories envOk).uploaded = [] :=
  ⟨rfl, rfl, rfl⟩

theorem runItems_counts (ts : Str) (items : List ProcItem) :
    ∀ (idx : Nat) (st : LoopState),
      st.articles_processed = st.articles_with_audio →
      st.articles_with_audio = st.articles.length →
      (runItems ts idx items st).articles_processed
          = (runItems ts idx items st).articles_with_audio
      ∧ (runItems ts idx items st).articles_with_audio
          = (runItems ts idx items st).articles.length := by
  induction items with
  | nil => intro idx st h1 h2; exact ⟨h1, h2⟩
  | cons p rest ih =>
    intro idx st h1 h2
    cases ho : itemOutcome ts idx p with
    | ok info =>
      simp only [runItems, ho]
      exact ih (idx + 1) _ (by simp [h1]) (by simp [h2])
    | error e =>
      simp only [runItems, ho]
      exact ih (idx + 1) _ h1 h2

theorem runItems_spec (ts : Str) (items : List ProcItem) :
    ∀ (idx : Nat) (st : LoopState),
      (runItems ts idx items st).errors = st.errors ++ itemErrors ts idx items
      ∧ (runItems ts idx items st).articles
          = st.articles ++ itemInfos ts idx items := by
  induction items with
  | nil => intro idx st; simp [runItems, itemErrors, itemInfos]
  | cons p rest ih =>
    intro idx st
    cases ho : itemOutcome ts idx p with
    | ok info =>
      simp only [runItems, itemErrors, itemInfos, ho]
      refine ⟨(ih (idx + 1) _).1, ?_⟩
      rw [(ih (idx + 1) _).2]
      simp
    | error e =>
      simp only [runItems, itemErrors, itemInfos, ho]
      refine ⟨?_, (ih (idx + 1) _).2⟩
      rw [(ih (idx + 1) _).1]
      simp

theorem itemErrors_infos_length (ts : Str) (items : List ProcItem) :
    ∀ idx : Nat,
      (itemErrors ts idx items).length + (itemInfos ts idx items).length
        = items.length := by
  induction items with
  | nil => intro idx; simp [itemErrors, itemInfos]
  | cons p rest ih =>
    intro idx
    cases ho : itemOutcome ts idx p with
    | ok info =>
      simp only [itemErrors, itemInfos, ho, List.length_cons]
      have := ih (idx + 1)
      omega
    | error e =>
      simp only [itemErrors, itemInfos, ho, List.length_cons]
      have := ih (idx + 1)
      omega

/-- On the success path (search found something, extraction returned items,
final commit succeeds) the workflow returns the response assembled from the
item loop's final state. -/
theorem generate_news_with_audio_success_eq (env : NewsEnv) (query : Str)
    (found : Nat) (items : List ProcItem)
    (hs : env.search = .ok found) (hf : found ≠ 0)
    (he : env.extract = .ok items) (hi : items.isEmpty = false)
    (hc : env.commit = .ok ()) :
    generate_news_with_audio env query
      = .ok { success := decide (0 < (runItems env.timestamp 0 items
                ⟨0, 0, [], []⟩).articles_with_audio)
              query := query
              articles_found := found
              articles_processed := (runItems env.timestamp 0 items
                ⟨0, 0, [], []⟩).articles_processed
              articles_with_audio := (runItems env.timestamp 0 items
                ⟨0, 0, [], []⟩).articles_with_audio
              articles := (runItems env.timestamp 0 items
                ⟨0, 0, [], []⟩).articles
              errors := (runItems env.timestamp 0 items
                ⟨0, 0, [], []⟩).errors } := by
  simp [generate_news_with_audio, hs, he, hc, hi, hf]

/-- C9: every response the news-with-audio workflow returns (early returns
included) has `articles_processed = articles_with_audio = articles.length`:
the loop increments both counters together, once, right after appending the
item's entry, and only when that item's audio generation and storage
preparation both succeeded. -/
theorem batch_counters_consistent (env : NewsEnv) (query : Str)
    (r : NewsWithAudioResponse)
    (h : generate_news_with_audio env query = .ok r) :
    r.articles_processed = r.articles_with_audio
    ∧ r.articles_with_audio = r.articles.length := by
  unfold generate_news_with_audio at h
  split at h
  · exact Except.noConfusion h
  · split at h
    · cases h; exact ⟨rfl, rfl⟩
    · split at h
      · exact Except.noConfusion h
      next items hextract =>
        split at h
        · cases h; exact ⟨rfl, rfl⟩
        · dsimp only at h
          split at h
          · exact Except.noConfusion h
          · cases h
            exact runItems_counts env.timestamp items 0
              ⟨0, 0, [], []⟩ rfl rfl

/-- Witness for `batch_counters_consistent` on a concrete one-item batch. -/
theorem batch_counters_consistent_witness :
    respNoContent.articles_processed = respNoContent.articles_with_audio
    ∧ respNoContent.articles_with_audio = respNoContent.articles.length :=
  batch_counters_consistent envNoContent (str "q") respNoContent rfl

/-- C8 (amended): with the search, extraction and final commit succeeding,
the workflow returns normally whatever the per-item outcomes: each failing
item contributes exactly one entry to `errors` (its index is rendered in the
entry; the URL is included only for exception-path failures — embedding, TTS
or flush — while the no-content and failed-summary entries carry the index
alone, refuting the claim that every entry identifies the URL, see
`nocontent_error_lacks_url`), each succeeding item contributes exactly one
`articles` entry, and the two accounts exhaust the batch, so no item failure
aborts processing of the remaining items. -/
theorem batch_isolates_item_failures (env : NewsEnv) (query : Str)
    (found : Nat) (items : List ProcItem)
    (hs : env.search = .ok found) (hf : found ≠ 0)
    (he : env.extract = .ok items) (hi : items.isEmpty = false)
    (hc : env.commit = .ok ()) :
    ∃ r, generate_news_with_audio env query = .ok r
      ∧ r.errors = itemErrors env.timestamp 0 items
      ∧ r.articles = itemInfos env.timestamp 0 items
      ∧ r.errors.length + r.articles.length = items.length := by
  refine ⟨_, generate_news_with_audio_success_eq env query found items hs hf
    he hi hc, ?_, ?_, ?_⟩
  · have := (runItems_spec env.timestamp items 0 ⟨0, 0, [], []⟩).1
    simpa using this
  · have := (runItems_spec env.timestamp items 0 ⟨0, 0, [], []⟩).2
    simpa using this
  · have h1 := (runItems_spec env.timestamp items 0 ⟨0, 0, [], []⟩).1
    have h2 := (runItems_spec env.timestamp items 0 ⟨0, 0, [], []⟩).2
    simp only [h1, h2]
    simpa using itemErrors_infos_length env.timestamp items 0

/-- Witness for `batch_isolates_item_failures`: a two-item batch whose first
item fails (no content) and whose second succeeds. -/
theorem batch_isolates_item_failures_witness :
    ∃ r, generate_news_with_audio envMixed (str "q") = .ok r
      ∧ r.errors = itemErrors envMixed.timestamp 0 [itemNoContent, itemGood]
      ∧ r.articles = itemInfos envMixed.timestamp 0 [itemNoContent, itemGood]
      ∧ r.errors.length + r.articles.length
          = ([itemNoContent, itemGood] : List ProcItem).length :=
  batch_isolates_item_failures envMixed (str "q") 2 [itemNoContent, itemGood]
    rfl (by decide) rfl rfl rfl

/-- C8 counterexample: the error entry recorded for a seed item with no text
content states the index only — the item's URL appears nowhere in it —
refuting "an entry ... that identifies both the item's index and its
URL/source". -/
theorem nocontent_error_lacks_url :
    (generate_news_with_audio envNoContent (str "q")).toOption.map
        (fun r => r.errors) = some [str "Article 0: No text content"]
    ∧ ¬ (str "http://example.com/a" <:+: str "Article 0: No text content") := by
  constructor
  · rfl
  · decide

/-- C10: summarization always returns an optional string and never raises —
`None` on empty or whitespace-only input and on any model-call failure
(including a `None` message content, whose `.strip()` raises inside the
`except`) — and the model is only ever shown the first 8000 characters of the
article text, so two texts agreeing on that prefix (both passing the
emptiness guard) summarize identically. -/
theorem summary_total_and_prefix_limited
    (modelCall : Str → Str → Except Err ChatResponse) (text title : Str)
    (target : Nat) :
    ((pyStrip text).isEmpty = true →
      create_audio_summary modelCall text title target = none)
    ∧ (∀ e, modelCall summarySystemPrompt
          (summaryUserPrompt target title text) = .error e →
        create_audio_summary modelCall text title target = none)
    ∧ (∀ resp, modelCall summarySystemPrompt
          (summaryUserPrompt target title text) = .ok resp →
        resp.content = none →
        create_audio_summary modelCall text title target = none)
    ∧ (∀ text2 : Str, text.take 8000 = text2.take 8000 →
        (pyStrip text).isEmpty = false → (pyStrip text2).isEmpty = false →
        create_audio_summary modelCall text title target
          = create_audio_summary modelCall text2 title target) := by
  refine ⟨?_, ?_, ?_, ?_⟩
  · intro h
    simp [create_audio_summary, h]
  · intro e he
    by_cases h : (pyStrip text).isEmpty = true
    · simp [create_audio_summary, h]
    · have h' : (pyStrip text).isEmpty = false := Bool.eq_false_iff.mpr h
      simp [create_audio_summary, h', he]
  · intro resp hresp hc
    by_cases h : (pyStrip text).isEmpty = true
    · simp [create_audio_summary, h]
    · have h' : (pyStrip text).isEmpty = false := Bool.eq_false_iff.mpr h
      simp [create_audio_summary, h', hresp, hc]
  · intro text2 htake h1 h2
    have hprompt : summaryUserPrompt target title text
        = summaryUserPrompt target title text2 := by
      unfold summaryUserPrompt
      rw [htake]
    simp [create_audio_summary, h1, h2, hprompt]

/-- Witness for `summary_total_and_prefix_limited`: a whitespace-only text
yields `None` even though the model would have answered, and a model failure
yields `None` on a non-empty text. -/
theorem summary_total_and_prefix_limited_witness :
    create_audio_summary (fun _ _ => .ok ⟨some (str "S")⟩) (str " ")
        (str "") 2 = none
    ∧ create_audio_summary (fun _ _ => .error (str "boom")) (str "hi")
        (str "") 2 = none :=
  ⟨(summary_total_and_prefix_limited (fun _ _ => .ok ⟨some (str "S")⟩)
      (str " ") (str "") 2).1 (by decide),
   (summary_total_and_prefix_limited (fun _ _ => .error (str "boom"))
      (str "hi") (str "") 2).2.1 (str "boom") rfl⟩
